import Mathlib

/-!
Verification of the Discord bot in `src/app.py` (Bot-Mio-LaBel).

The program is a flat set of command/event handlers over the discord.py
library.  We shallowly embed each handler as a pure Lean function from its
resolved inputs (command arguments, channel state, a random oracle where the
source calls `random`) to the list of externally visible actions it performs
(replies, sends, deletions, moderation calls, log lines).  Strings are built
with `++` exactly as the source's f-strings concatenate literal chunks and
interpolations.  Python `int` is unbounded, so integer arguments are `Int`;
counts of messages are `Nat`.
-/

namespace Bot

/-- An externally visible effect performed by a handler, in order. -/
inductive Action where
  /-- Models `ctx.reply(content, mention_author=...)` with a text body. -/
  | reply (content : String) (mentionAuthor : Bool)
  /-- Models `ctx.reply(embed=..., mention_author=...)`; we record the embed title. -/
  | replyEmbed (title : String) (mentionAuthor : Bool)
  /-- Models `ctx.send(content)` / `channel.send(content)` in the current channel. -/
  | send (content : String)
  /-- Models `channel.send(content, delete_after=seconds)`: a transient notice. -/
  | sendTransient (content : String) (deleteAfterSeconds : Nat)
  /-- Models `channel.send` into a named channel (used by the member-join greeting). -/
  | sendInChannel (channelName : String) (content : String)
  /-- Models `ctx.channel.purge(limit=limit)`. -/
  | purge (limit : Int)
  /-- Models `ctx.message.delete()` attempted inside try/except; the flag records
  whether the underlying deletion succeeded (the exception is swallowed). -/
  | attemptDeleteInvoking (succeeded : Bool)
  /-- Models `member.kick(reason=...)`. -/
  | kickMember (member : String) (reason : String)
  /-- Models `member.ban(reason=...)`. -/
  | banMember (member : String) (reason : String)
  /-- Models `bot.fetch_user(user_id)`. -/
  | fetchUser (userId : Int)
  /-- Models `ctx.guild.unban(user)`. -/
  | unbanUser (user : String)
  /-- Models `member.add_roles(role)`. -/
  | addRoleTo (role : String) (member : String)
  /-- Models `member.remove_roles(role)`. -/
  | removeRoleFrom (role : String) (member : String)
  /-- A `logger.*` call: server-side only, never user-visible. -/
  | log (message : String)
deriving DecidableEq, Repr

/-- Does the action mutate remote platform state (delete, kick, ban,
role change)?  Replies, sends and log lines are not mutations. -/
def Action.isMutation : Action → Bool
  | .purge _ => true
  | .attemptDeleteInvoking _ => true
  | .kickMember _ _ => true
  | .banMember _ _ => true
  | .unbanUser _ => true
  | .addRoleTo _ _ => true
  | .removeRoleFrom _ _ => true
  | _ => false

/-- Is the action visible to users of the platform (anything except a
server-side log line)? -/
def Action.isUserVisible : Action → Bool
  | .log _ => false
  | _ => true

/-- The `mention_author` flag of a reply action; `false` for non-replies. -/
def Action.mentionsAuthor : Action → Bool
  | .reply _ m => m
  | .replyEmbed _ m => m
  | _ => false

/-- Every reply in the trace was sent with `mention_author=False`. -/
def repliesSilent (l : List Action) : Bool :=
  l.all fun a => ! a.mentionsAuthor

/-- No action in the trace mutates remote state. -/
def noMutation (l : List Action) : Bool :=
  l.all fun a => ! a.isMutation

/-- Substring occurrence: `t` occurs contiguously in `s` (on the character lists). -/
def occursIn (t s : String) : Prop := t.data <:+: s.data

instance (t s : String) : Decidable (occursIn t s) :=
  List.decidableInfix t.data s.data

/-! ## Randomness

The source uses `random.randint` and `random.choice`.  We model the random
source as an oracle `r : Nat` supplied to the handler; `randint a b r` is the
value drawn when the generator yields `r`, reduced into the requested range,
so that every value of the range is drawn for some oracle value. -/

/-- Model of `random.randint(a, b)`: an integer in `[a, b]`, uniform over the
oracle. -/
def randint (a b : Int) (r : Nat) : Int := a + (r : Int) % (b - a + 1)

/-- Model of `random.choice(l)`: an element of `l`, uniform over the oracle. -/
def randomChoice (l : List String) (r : Nat) : String :=
  l.getD (r % l.length) ""

/-! ## Basic commands (`src/app.py` lines 88-146) -/

/-- Command `ping`: reply with the websocket latency.  `round(bot.latency * 1000)` is
a runtime float measurement; the already-rounded millisecond value is taken
as the handler's input. -/
def ping (wsLatencyMs : Int) : List Action :=
  [.reply ("Pong! WebSocket latency: " ++ toString wsLatencyMs ++ "ms") false]

/-- Command `say`: try to delete the invoking message, swallowing any failure
(`succeeded` records the outcome of the attempted deletion), then send the
supplied text in the channel. -/
def say (deleteSucceeded : Bool) (message : String) : List Action :=
  [.attemptDeleteInvoking deleteSucceeded, .send message]

/-- Command `avatar [member]`: embed titled `f"{member}'s avatar"`, the target
defaulting to the caller (`member = member or ctx.author`). -/
def avatar (member : Option String) (author : String) : List Action :=
  let m := member.getD author
  [.replyEmbed (m ++ "\x27s avatar") false]

/-- Command `serverinfo`: embed titled with the guild name (plus informational
fields that involve no branching). -/
def serverinfo (guildName : String) : List Action :=
  [.replyEmbed guildName false]

/-- Command `userinfo [member]` (alias `user`): embed titled `str(member)`, the
target defaulting to the caller. -/
def userinfo (member : Option String) (author : String) : List Action :=
  [.replyEmbed (member.getD author) false]

/-! ## Moderation commands (`src/app.py` lines 150-198) -/

/-- Number of messages removed by `channel.purge(limit=limit)` when the
channel currently holds `available` deletable messages (including the
invoking command message): the purge scans at most `limit` messages. -/
def purgeDeleted (limit : Int) (available : Nat) : Nat :=
  min limit.toNat available

/-- The `N` of the `"Deleted N messages."` notice: `len(deleted) - 1`, where
the purge ran with `limit = amount + 1` over `prior + 1` available messages
(the `prior` preceding messages plus the command message itself). -/
def clearNoticeCount (prior : Nat) (amount : Int) : Nat :=
  purgeDeleted (amount + 1) (prior + 1) - 1

/-- Command `clear`/`purge`/`clean [amount]`: reject amounts outside `[1, 200]`,
otherwise purge with `limit = amount + 1` and post a transient
`"Deleted N messages."` notice with `delete_after=5`. -/
def clear (prior : Nat) (amount : Int) : List Action :=
  if amount < 1 ∨ amount > 200 then
    [.reply "Please provide a number between 1 and 200." false]
  else
    [.purge (amount + 1),
     .sendTransient ("Deleted " ++ toString (clearNoticeCount prior amount) ++ " messages.") 5]

/-- Invocation of `clear` through the dispatcher: a missing argument is
filled with the declared default `amount: int = 10`. -/
def clearInvoke (prior : Nat) (arg : Option Int) : List Action :=
  clear prior (arg.getD 10)

/-- Command `kick <member> [reason]`: kick, then confirm. -/
def kick (member : String) (reason : String := "No reason provided") : List Action :=
  [.kickMember member reason,
   .reply ("Kicked " ++ member ++ " - " ++ reason) false]

/-- Command `ban <member> [reason]`: ban, then confirm. -/
def ban (member : String) (reason : String := "No reason provided") : List Action :=
  [.banMember member reason,
   .reply ("Banned " ++ member ++ " - " ++ reason) false]

/-- Command `unban <user_id>`: fetch the user by id, lift the ban, confirm.
`user` is the display string of the fetched user. -/
def unban (userId : Int) (user : String) : List Action :=
  [.fetchUser userId, .unbanUser user,
   .reply ("Unbanned " ++ user ++ ".") false]

/-- Command `addrole <member> <role>`: grant the role, confirm by role name and
member mention. -/
def addrole (memberMention : String) (roleName : String) : List Action :=
  [.addRoleTo roleName memberMention,
   .reply ("Added role " ++ roleName ++ " to " ++ memberMention ++ ".") false]

/-- Command `removerole <member> <role>`: revoke the role, confirm. -/
def removerole (memberMention : String) (roleName : String) : List Action :=
  [.removeRoleFrom roleName memberMention,
   .reply ("Removed role " ++ roleName ++ " from " ++ memberMention ++ ".") false]

/-! ## Fun commands (`src/app.py` lines 202-228) -/

/-- The ten canned 8-ball answers. -/
def EIGHT_BALL_ANSWERS : List String :=
  ["It is certain.", "Without a doubt.", "You may rely on it.",
   "Ask again later.", "Better not tell you now.", "Very doubtful.",
   "My sources say no.", "Signs point to yes.", "Absolutely!", "No way."]

/-- Command `8ball <question>` (alias `eightball`): echo the question and a random
canned answer. -/
def eightball (question : String) (r : Nat) : List Action :=
  [.reply ("🎱 Question: " ++ question ++ "\nAnswer: **"
      ++ randomChoice EIGHT_BALL_ANSWERS r ++ "**") false]

/-- Command `coin`: reply with a random side of the coin. -/
def coin (r : Nat) : List Action :=
  [.reply (randomChoice ["Heads 🪙", "Tails 🪙"] r) false]

/-- Command `roll [sides]`: reject sides outside `[2, 1000000]`, otherwise reply
with `randint(1, sides)`. -/
def roll (sides : Int) (r : Nat) : List Action :=
  if sides < 2 ∨ sides > 1000000 then
    [.reply "Please choose a number between 2 and 1,000,000." false]
  else
    [.reply ("🎲 d" ++ toString sides ++ " -> **" ++ toString (randint 1 sides r) ++ "**") false]

/-- Invocation of `roll` through the dispatcher: a missing argument is
filled with the declared default `sides: int = 6`. -/
def rollInvoke (r : Nat) (arg : Option Int) : List Action :=
  roll (arg.getD 6) r

/-! ## The help command (`src/app.py` lines 232-266)

The reply body is `textwrap.dedent` applied to an f-string: a concatenation
of literal chunks with the configured command marker `p` and `str(bot.user)`
(`u`) interpolated.  `dedent` removes the common 8-space margin and turns
whitespace-only lines into empty ones; `helpParts` lists the resulting
chunks, split so that each interpolation of `p` starts a chunk. -/

/-- Concatenation of a chunk list (the value of the dedented f-string). -/
def strConcat : List String → String
  | [] => ""
  | x :: l => x ++ strConcat l

/-- The chunks of the dedented help f-string, in order. -/
def helpParts (p u : String) : List String :=
  ["\nNekoNi2 - commands\nPrefix: " ++ p ++ "\n\nModeration:\n  ",
   p ++ "clear <amount>       - Delete messages (requires Manage Messages)\n  ",
   p ++ "kick <member> [reason]\n  ",
   p ++ "ban <member> [reason]\n  ",
   p ++ "unban <user_id>\n\nUtility:\n  ",
   p ++ "ping\n  ",
   p ++ "say <message>        - (requires Manage Messages)\n  ",
   p ++ "avatar [member]\n  ",
   p ++ "userinfo [member]\n  ",
   p ++ "serverinfo\n\nFun:\n  ",
   p ++ "8ball <question>\n  ",
   p ++ "coin\n  ",
   p ++ "roll [sides]\n\nAdvanced:\n  ",
   p ++ "addrole <member> <role>      - requires Manage Roles\n  ",
   p ++ "removerole <member> <role>\n\nUse @" ++ u
     ++ " as a mention or the prefix to run commands.\n"]

/-- The full help text for command marker `p` and bot user string `u`. -/
def helpText (p u : String) : String := strConcat (helpParts p u)

/-- Command `help`: reply with the help text. -/
def help_command (p u : String) : List Action :=
  [.reply (helpText p u) false]

/-! ## Member-join event (`src/app.py` lines 48-56) -/

/-- A guild text channel as the handler sees it: its name and whether
`channel.permissions_for(guild.me).send_messages` holds. -/
structure TextChannel where
  name : String
  canSendMessages : Bool
deriving DecidableEq, Repr

/-- A guild as the member-join handler sees it. -/
structure Guild where
  name : String
  textChannels : List TextChannel
deriving DecidableEq, Repr

/-- The debug log line used when no welcome message can be sent. -/
def welcomeNotFoundLog (welcome guildName : String) : String :=
  "Welcome channel \x27" ++ welcome ++ "\x27 not found or no permission in guild "
    ++ guildName

/-- The greeting posted for a new member. -/
def greeting (memberMention guildName : String) : String :=
  "Welcome " ++ memberMention ++ " to **" ++ guildName ++ "**! Say hi 👋"

/-- Event `on_member_join`: find the first text channel whose name equals the
configured welcome-channel name (`discord.utils.get`); if found and the bot
may send there, post the greeting; otherwise only log. -/
def on_member_join (welcome : String) (g : Guild) (memberMention : String) :
    List Action :=
  match g.textChannels.find? (fun c => c.name == welcome) with
  | some c =>
    if c.canSendMessages then
      [.sendInChannel c.name (greeting memberMention g.name)]
    else
      [.log (welcomeNotFoundLog welcome g.name)]
  | none => [.log (welcomeNotFoundLog welcome g.name)]

/-! ## Command-error hook (`src/app.py` lines 60-79) -/

/-- The discord.py error classes the hook distinguishes.  `otherError`
stands for any exception matching none of the named classes. -/
inductive CmdError where
  | missingPermissions
  | botMissingPermissions
  | missingRequiredArgument (paramName : String)
  | badArgument
  | commandNotFound
  | otherError (description : String)
deriving DecidableEq, Repr

/-- The error as delivered to the hook: either one of the classes above, or
a `CommandInvokeError` wrapper whose `original` field may carry the real
exception. -/
inductive RaisedError where
  | plain (e : CmdError)
  | commandInvokeError (original : Option CmdError)
deriving DecidableEq, Repr

/-- Hook `on_command_error`: unwrap a `CommandInvokeError` with a truthy
`original`, then map the error class to its reply; unknown commands are
dropped silently, anything unclassified is logged and answered generically. -/
def on_command_error (e : RaisedError) : List Action :=
  let err : CmdError :=
    match e with
    | .commandInvokeError (some orig) => orig
    | .commandInvokeError none => .otherError "CommandInvokeError"
    | .plain k => k
  match err with
  | .missingPermissions =>
    [.reply "You do not have permission to run this command." false]
  | .botMissingPermissions =>
    [.reply "I don\x27t have the required permissions to do that." false]
  | .missingRequiredArgument n =>
    [.reply ("Missing argument: " ++ n) false]
  | .badArgument =>
    [.reply "Bad argument provided." false]
  | .commandNotFound => []
  | .otherError _ =>
    [.log "Unhandled command error",
     .reply "An unexpected error occurred. The error has been logged." false]

/-! ## Configuration loading and startup (`src/app.py` lines 15-18, 270-275)

The environment is a partial map from variable names to values.  Python's
`int(...)` on the `OWNER_ID` string may raise `ValueError`, so loading the
module yields `Except`: `.error` models an exception escaping at import
time. -/

/-- Models `os.getenv(k, d)`. -/
def getenvD (env : String → Option String) (k d : String) : String :=
  (env k).getD d

/-- Strip leading and trailing whitespace (as `int(str)` does). -/
def pyStrip (l : List Char) : List Char :=
  ((l.dropWhile Char.isWhitespace).reverse.dropWhile Char.isWhitespace).reverse

/-- Digits of an integer literal after the first: decimal digits with single
underscores allowed between digits, as Python accepts. -/
def pyDigitsAux (acc : Nat) : List Char → Option Nat
  | [] => some acc
  | c :: cs =>
    if c.isDigit then pyDigitsAux (acc * 10 + (c.toNat - 48)) cs
    else if c = '_' then
      match cs with
      | d :: cs2 =>
        if d.isDigit then pyDigitsAux (acc * 10 + (d.toNat - 48)) cs2 else none
      | [] => none
    else none

/-- A nonempty digit run starting with a digit. -/
def pyDigits : List Char → Option Nat
  | [] => none
  | c :: cs => if c.isDigit then pyDigitsAux (c.toNat - 48) cs else none

/-- Model of Python `int(s)`: `some` the parsed value, `none` when `int`
would raise `ValueError`. -/
def pyInt (s : String) : Option Int :=
  match pyStrip s.data with
  | '+' :: rest => (pyDigits rest).map fun n => (n : Int)
  | '-' :: rest => (pyDigits rest).map fun n => -(n : Int)
  | rest => (pyDigits rest).map fun n => (n : Int)

/-- The module-level configuration record: `PREFIX`, `TOKEN`,
`WELCOME_CHANNEL`, `OWNER_ID` (field names adapted to Lean). -/
structure Config where
  pfx : String
  token : Option String
  welcomeChannel : String
  ownerId : Option Int
deriving DecidableEq, Repr

/-- Loading the module-level configuration.  `OWNER_ID` is converted with
`int(...)` only when `os.getenv("OWNER_ID")` is truthy (set and nonempty);
a failing conversion raises at import time (`.error`). -/
def loadConfig (env : String → Option String) : Except String Config :=
  let p := getenvD env "PREFIX" "!"
  let token := env "DISCORD_TOKEN"
  let welcome := getenvD env "WELCOME_CHANNEL" "general"
  match env "OWNER_ID" with
  | some s =>
    if s = "" then .ok ⟨p, token, welcome, none⟩
    else
      match pyInt (getenvD env "OWNER_ID" "0") with
      | some n => .ok ⟨p, token, welcome, some n⟩
      | none =>
        .error ("ValueError: invalid literal for int() with base 10: \x27"
          ++ s ++ "\x27")
  | none => .ok ⟨p, token, welcome, none⟩

/-- Outcome of the `__main__` block. -/
inductive RunOutcome where
  | failedFast (message : String)
  | started (token : String)
deriving DecidableEq, Repr

/-- The error text printed and logged when the token is missing. -/
def tokenMissingMsg : String :=
  "DISCORD_TOKEN is not set. Please set the DISCORD_TOKEN environment variable or create a .env file."

/-- The `__main__` block: `if not TOKEN` report and stop, else run the bot
with the token. -/
def mainRun (cfg : Config) : RunOutcome :=
  match cfg.token with
  | none => .failedFast tokenMissingMsg
  | some t => if t = "" then .failedFast tokenMissingMsg else .started t

/-! ## Concrete inputs used to instantiate the theorems -/

/-- The primary registered command names of the command surface
(`@bot.command(name=...)` in order of declaration). -/
def commandNames : List String :=
  ["ping", "say", "avatar", "serverinfo", "userinfo", "clear", "kick", "ban",
   "unban", "addrole", "removerole", "8ball", "coin", "roll"]

/-- An environment in which `DISCORD_TOKEN` is set to the empty string. -/
def envEmptyToken : String → Option String :=
  fun k => if k = "DISCORD_TOKEN" then some "" else none

/-- An environment in which only `DISCORD_TOKEN` is set (nonempty). -/
def envTokenSet : String → Option String :=
  fun k => if k = "DISCORD_TOKEN" then some "secret-token" else none

/-- An environment in which `OWNER_ID` is set to the empty string. -/
def envOwnerEmpty : String → Option String :=
  fun k => if k = "OWNER_ID" then some "" else none

/-- An environment in which `OWNER_ID` is set to a non-numeric string. -/
def envOwnerBad : String → Option String :=
  fun k => if k = "OWNER_ID" then some "abc" else none

/-- A one-channel guild used to instantiate the member-join theorem. -/
def sampleGuild : Guild :=
  ⟨"Guildname", [⟨"general", true⟩]⟩

/-! ## Helper lemmas about substring occurrence -/

theorem occursIn_append_left (t s x : String) (h : occursIn t s) :
    occursIn t (s ++ x) := by
  obtain ⟨a, b, hab⟩ := h
  exact ⟨a, b ++ x.data, by rw [String.data_append, ← hab]; simp⟩

theorem occursIn_append_right (t s x : String) (h : occursIn t s) :
    occursIn t (x ++ s) := by
  obtain ⟨a, b, hab⟩ := h
  exact ⟨x.data ++ a, b, by rw [String.data_append, ← hab]; simp⟩

/-- Occurrence of `p ++ c` at the start of `p ++ (c ++ tail)`. -/
theorem occursIn_marker (p c tail : String) : occursIn (p ++ c) (p ++ (c ++ tail)) :=
  ⟨[], tail.data, by simp [String.data_append]⟩

/-- An occurrence inside one chunk is an occurrence in the concatenation. -/
theorem occursIn_strConcat (t : String) :
    ∀ (parts : List String) (x : String), x ∈ parts → occursIn t x →
      occursIn t (strConcat parts) := by
  intro parts
  induction parts with
  | nil => intro x hx; cases hx
  | cons y l ih =>
    intro x hx hocc
    rcases List.mem_cons.mp hx with rfl | hmem
    · exact occursIn_append_left t x (strConcat l) hocc
    · exact occursIn_append_right t (strConcat l) y (ih x hmem hocc)

/-! ## C1 — the `clear` command -/

/-- C1: `clear`/`purge`/`clean` with amount outside `[1, 200]` replies with
the rejection message and performs no deletion; with amount in `[1, 200]` it
purges with `limit = amount + 1` (the `amount` preceding messages plus the
invoking command message) and posts a transient `"Deleted N messages."`
notice with `delete_after=5`; an omitted argument defaults to `10`. -/
theorem clear_spec (prior : Nat) (amount : Int) :
    (amount < 1 ∨ amount > 200 →
      clear prior amount = [.reply "Please provide a number between 1 and 200." false] ∧
      noMutation (clear prior amount) = true) ∧
    (1 ≤ amount → amount ≤ 200 →
      clear prior amount =
        [.purge (amount + 1),
         .sendTransient
           ("Deleted " ++ toString (clearNoticeCount prior amount) ++ " messages.") 5]) ∧
    clearInvoke prior none = clear prior 10 := by
  refine ⟨?_, ?_, rfl⟩
  · intro h
    unfold clear
    rw [if_pos h]
    exact ⟨rfl, rfl⟩
  · intro h1 h2
    unfold clear
    rw [if_neg (by omega)]

theorem clear_spec_witness :
    clear 7 300 = [.reply "Please provide a number between 1 and 200." false] ∧
    clear 7 3 = [.purge 4, .sendTransient "Deleted 3 messages." 5] ∧
    clearInvoke 7 none = clear 7 10 := by
  refine ⟨((clear_spec 7 300).1 (by omega)).1, ?_, (clear_spec 7 300).2.2⟩
  have h := (clear_spec 7 3).2.1 (by omega) (by omega)
  rw [h]
  decide

/-! ## C2 — the `roll` command -/

/-- C2: `roll` with sides outside `[2, 1000000]` replies with the rejection
message (independently of the random oracle); with sides in range it replies
with `randint(1, sides)`, which lies in `[1, sides]` and attains every value
of `[1, sides]` for some oracle value; an omitted argument defaults to `6`. -/
theorem roll_spec (sides : Int) (r : Nat) :
    (sides < 2 ∨ sides > 1000000 →
      roll sides r = [.reply "Please choose a number between 2 and 1,000,000." false]) ∧
    (2 ≤ sides → sides ≤ 1000000 →
      roll sides r =
        [.reply ("🎲 d" ++ toString sides ++ " -> **"
          ++ toString (randint 1 sides r) ++ "**") false] ∧
      1 ≤ randint 1 sides r ∧ randint 1 sides r ≤ sides) ∧
    (∀ v : Int, 2 ≤ sides → 1 ≤ v → v ≤ sides →
      ∃ r2 : Nat, randint 1 sides r2 = v) ∧
    rollInvoke r none = roll 6 r := by
  have hmod : ∀ s2 : Int, 2 ≤ s2 → ∀ r2 : Nat,
      0 ≤ (r2 : Int) % s2 ∧ (r2 : Int) % s2 < s2 := by
    intro s2 hs r2
    exact ⟨Int.emod_nonneg (r2 : Int) (by omega), Int.emod_lt_of_pos (r2 : Int) (by omega)⟩
  refine ⟨?_, ?_, ?_, rfl⟩
  · intro h
    unfold roll
    rw [if_pos h]
  · intro h1 h2
    have hb : (sides : Int) - 1 + 1 = sides := by ring
    refine ⟨?_, ?_, ?_⟩
    · unfold roll
      rw [if_neg (by omega)]
    · have := (hmod sides h1 r).1
      unfold randint
      rw [hb]
      omega
    · have := (hmod sides h1 r).2
      unfold randint
      rw [hb]
      omega
  · intro v h1 hv1 hv2
    refine ⟨(v - 1).toNat, ?_⟩
    unfold randint
    have hb : (sides : Int) - 1 + 1 = sides := by ring
    rw [hb]
    have hcast : (((v - 1).toNat : Nat) : Int) = v - 1 := by omega
    rw [hcast, Int.emod_eq_of_lt (by omega) (by omega)]
    omega

theorem roll_spec_witness :
    roll 1000001 0 = [.reply "Please choose a number between 2 and 1,000,000." false] ∧
    roll 6 0 = [.reply "🎲 d6 -> **1**" false] ∧
    (1 ≤ randint 1 6 0 ∧ randint 1 6 0 ≤ 6) ∧
    (∃ r2 : Nat, randint 1 6 r2 = 4) := by
  refine ⟨(roll_spec 1000001 0).1 (by omega), ?_,
    ((roll_spec 6 0).2.1 (by omega) (by omega)).2,
    (roll_spec 6 0).2.2.1 4 (by omega) (by omega) (by omega)⟩
  have h := ((roll_spec 6 0).2.1 (by omega) (by omega)).1
  rw [h]
  decide

/-! ## C3 — the command-error hook -/

/-- C3: the single error hook maps each error kind to exactly the specified
reply: missing caller permission, missing bot permission, missing required
argument (interpolating the parameter name), bad argument, silence for
unknown commands, and a generic reply plus a server-side log for anything
else; the missing-argument response performs no mutation. -/
theorem on_command_error_spec (n d : String) :
    on_command_error (.plain .missingPermissions) =
      [.reply "You do not have permission to run this command." false] ∧
    on_command_error (.plain .botMissingPermissions) =
      [.reply "I don\x27t have the required permissions to do that." false] ∧
    on_command_error (.plain (.missingRequiredArgument n)) =
      [.reply ("Missing argument: " ++ n) false] ∧
    on_command_error (.plain .badArgument) =
      [.reply "Bad argument provided." false] ∧
    on_command_error (.plain .commandNotFound) = [] ∧
    on_command_error (.plain (.otherError d)) =
      [.log "Unhandled command error",
       .reply "An unexpected error occurred. The error has been logged." false] ∧
    noMutation (on_command_error (.plain (.missingRequiredArgument n))) = true ∧
    (∀ e : CmdError, on_command_error (.commandInvokeError (some e)) =
      on_command_error (.plain e)) :=
  ⟨rfl, rfl, rfl, rfl, rfl, rfl, rfl, fun _ => rfl⟩

/-! ## C6 — the `say` command -/

/-- C6: `say` first attempts to delete the invoking message; whatever the
outcome of that deletion (the exception is swallowed), the handler completes
and its final action posts the supplied text unmodified in the channel. -/
theorem say_spec (deleteSucceeded : Bool) (message : String) :
    say deleteSucceeded message =
      [.attemptDeleteInvoking deleteSucceeded, .send message] ∧
    (say deleteSucceeded message).getLast? = some (.send message) ∧
    (say deleteSucceeded message).head? =
      some (.attemptDeleteInvoking deleteSucceeded) :=
  ⟨rfl, rfl, rfl⟩

/-! ## C7 — the member-join greeting -/

/-- C7: the member-join handler looks up the first text channel whose name
exactly equals the configured welcome-channel name; if one exists and the bot
may send there, it posts a greeting that mentions the new member; in every
other case it emits nothing user-visible, only a log line. -/
theorem on_member_join_spec (w m : String) (g : Guild) :
    (∀ c, g.textChannels.find? (fun ch => ch.name == w) = some c → c.name = w) ∧
    (∀ c, g.textChannels.find? (fun ch => ch.name == w) = some c →
      c.canSendMessages = true →
      on_member_join w g m = [.sendInChannel c.name (greeting m g.name)] ∧
      occursIn m (greeting m g.name)) ∧
    (∀ c, g.textChannels.find? (fun ch => ch.name == w) = some c →
      c.canSendMessages = false →
      on_member_join w g m = [.log (welcomeNotFoundLog w g.name)] ∧
      (on_member_join w g m).all (fun a => ! a.isUserVisible) = true) ∧
    (g.textChannels.find? (fun ch => ch.name == w) = none →
      on_member_join w g m = [.log (welcomeNotFoundLog w g.name)] ∧
      (on_member_join w g m).all (fun a => ! a.isUserVisible) = true) := by
  refine ⟨?_, ?_, ?_, ?_⟩
  · intro c hc
    have h := List.find?_some hc
    exact eq_of_beq (by simpa using h)
  · intro c hc hsend
    refine ⟨?_, ?_⟩
    · unfold on_member_join
      rw [hc]
      simp [hsend]
    · exact ⟨"Welcome ".data, (" to **" ++ g.name ++ "**! Say hi 👋").data,
        by simp [greeting, String.data_append]⟩
  · intro c hc hsend
    constructor <;>
      (unfold on_member_join; rw [hc]; simp [hsend, Action.isUserVisible])
  · intro hc
    refine ⟨?_, ?_⟩
    · unfold on_member_join
      rw [hc]
    · unfold on_member_join
      rw [hc]
      rfl

theorem on_member_join_spec_witness :
    on_member_join "general" sampleGuild "@newcomer" =
      [.sendInChannel "general" (greeting "@newcomer" "Guildname")] ∧
    on_member_join "lobby" sampleGuild "@newcomer" =
      [.log (welcomeNotFoundLog "lobby" "Guildname")] := by
  refine ⟨((on_member_join_spec "general" "@newcomer" sampleGuild).2.1
    ⟨"general", true⟩ (by decide) rfl).1, ?_⟩
  exact ((on_member_join_spec "lobby" "@newcomer" sampleGuild).2.2.2 (by decide)).1

/-! ## C8 — no command reply pings its author -/

/-- C8 (implicit): every `ctx.reply` issued by any command handler carries
`mention_author=False`, for all inputs and on all branches. -/
theorem replies_no_mention (wsLatencyMs userId amount sides : Int)
    (memberOpt : Option String)
    (author guildName question member reason user roleName memberMention p u : String)
    (r prior : Nat) :
    repliesSilent (ping wsLatencyMs) = true ∧
    repliesSilent (avatar memberOpt author) = true ∧
    repliesSilent (serverinfo guildName) = true ∧
    repliesSilent (userinfo memberOpt author) = true ∧
    repliesSilent (clear prior amount) = true ∧
    repliesSilent (kick member reason) = true ∧
    repliesSilent (ban member reason) = true ∧
    repliesSilent (unban userId user) = true ∧
    repliesSilent (addrole memberMention roleName) = true ∧
    repliesSilent (removerole memberMention roleName) = true ∧
    repliesSilent (eightball question r) = true ∧
    repliesSilent (coin r) = true ∧
    repliesSilent (roll sides r) = true ∧
    repliesSilent (help_command p u) = true := by
  refine ⟨rfl, rfl, rfl, rfl, ?_, rfl, rfl, rfl, rfl, rfl, rfl, rfl, ?_, rfl⟩
  · unfold clear
    split <;> rfl
  · unfold roll
    split <;> rfl

/-! ## C9 — the reported deletion count -/

/-- C9 (implicit): the `N` of the `"Deleted N messages."` notice is the
number of messages the purge actually removed minus one (the invoking
command message is not counted); when the channel held fewer than `amount`
preceding messages, `N` is that smaller number of preceding messages, hence
strictly less than `amount`. -/
theorem clear_notice_count_spec (prior : Nat) (amount : Int)
    (h1 : 1 ≤ amount) (h2 : amount ≤ 200) :
    clearNoticeCount prior amount = purgeDeleted (amount + 1) (prior + 1) - 1 ∧
    ((prior : Int) < amount →
      clearNoticeCount prior amount = prior ∧
      (clearNoticeCount prior amount : Int) < amount) ∧
    (amount ≤ (prior : Int) →
      (clearNoticeCount prior amount : Int) = amount) ∧
    Action.sendTransient
        ("Deleted " ++ toString (clearNoticeCount prior amount) ++ " messages.") 5
      ∈ clear prior amount := by
  refine ⟨rfl, ?_, ?_, ?_⟩
  · intro h
    unfold clearNoticeCount purgeDeleted
    constructor <;> omega
  · intro h
    unfold clearNoticeCount purgeDeleted
    omega
  · unfold clear
    rw [if_neg (by omega)]
    exact List.mem_cons_of_mem _ (List.mem_cons_self _ _)

theorem clear_notice_count_spec_witness :
    clearNoticeCount 4 9 = 4 ∧ ((clearNoticeCount 4 9 : Int) < 9) ∧
    Action.sendTransient "Deleted 4 messages." 5 ∈ clear 4 9 := by
  obtain ⟨-, hlt, -, hmem⟩ := clear_notice_count_spec 4 9 (by omega) (by omega)
  obtain ⟨he, hl⟩ := hlt (by omega)
  refine ⟨he, hl, ?_⟩
  have : ("Deleted " ++ toString (clearNoticeCount 4 9) ++ " messages.") =
      "Deleted 4 messages." := by decide
  rw [← this]
  exact hmem

/-! ## C4 — contents of the help reply -/

set_option maxRecDepth 20000 in
/-- C4, counterexample: the help reply does not contain the command name
`help` itself (nor the alias names `purge`, `clean`, `eightball`), already
with the default configuration. -/
theorem help_missing_names_counterexample :
    help_command "!" "NekoNi2" = [.reply (helpText "!" "NekoNi2") false] ∧
    ¬ occursIn "help" (helpText "!" "NekoNi2") ∧
    ¬ occursIn "purge" (helpText "!" "NekoNi2") ∧
    ¬ occursIn "clean" (helpText "!" "NekoNi2") ∧
    ¬ occursIn "eightball" (helpText "!" "NekoNi2") := by
  refine ⟨rfl, ?_, ?_, ?_, ?_⟩ <;> decide

/-- C4, amended: for every configured command marker `p` (and bot user
string `u`), the help reply contains each primary command name of the
command surface other than `help` — ping, say, avatar, serverinfo, userinfo,
clear, kick, ban, unban, addrole, removerole, 8ball, coin, roll — each
immediately preceded by `p`, i.e. every syntax line is interpolated with the
configured marker. -/
theorem help_contains_commands (p u : String) :
    ∀ c ∈ commandNames, occursIn (p ++ c) (helpText p u) := by
  have key : ∀ (c whole tail : String), whole = c ++ tail →
      (p ++ whole) ∈ helpParts p u → occursIn (p ++ c) (helpText p u) := by
    intro c whole tail hsplit hmem
    subst hsplit
    exact occursIn_strConcat (p ++ c) (helpParts p u) (p ++ (c ++ tail)) hmem
      (occursIn_marker p c tail)
  intro c hc
  simp only [commandNames, List.mem_cons, List.not_mem_nil, or_false] at hc
  rcases hc with rfl | rfl | rfl | rfl | rfl | rfl | rfl | rfl | rfl | rfl | rfl | rfl | rfl | rfl
  · exact key "ping" "ping\n  " "\n  " (by decide) (by simp [helpParts])
  · exact key "say" "say <message>        - (requires Manage Messages)\n  "
      " <message>        - (requires Manage Messages)\n  " (by decide)
      (by simp [helpParts])
  · exact key "avatar" "avatar [member]\n  " " [member]\n  " (by decide)
      (by simp [helpParts])
  · exact key "serverinfo" "serverinfo\n\nFun:\n  " "\n\nFun:\n  " (by decide)
      (by simp [helpParts])
  · exact key "userinfo" "userinfo [member]\n  " " [member]\n  " (by decide)
      (by simp [helpParts])
  · exact key "clear"
      "clear <amount>       - Delete messages (requires Manage Messages)\n  "
      " <amount>       - Delete messages (requires Manage Messages)\n  "
      (by decide) (by simp [helpParts])
  · exact key "kick" "kick <member> [reason]\n  " " <member> [reason]\n  "
      (by decide) (by simp [helpParts])
  · exact key "ban" "ban <member> [reason]\n  " " <member> [reason]\n  "
      (by decide) (by simp [helpParts])
  · exact key "unban" "unban <user_id>\n\nUtility:\n  " " <user_id>\n\nUtility:\n  "
      (by decide) (by simp [helpParts])
  · exact key "addrole" "addrole <member> <role>      - requires Manage Roles\n  "
      " <member> <role>      - requires Manage Roles\n  " (by decide)
      (by simp [helpParts])
  · have hA : ("removerole <member> <role>\n\nUse @" : String) =
        "removerole" ++ " <member> <role>\n\nUse @" := by decide
    refine occursIn_strConcat (p ++ "removerole") (helpParts p u)
      (p ++ "removerole <member> <role>\n\nUse @" ++ u
        ++ " as a mention or the prefix to run commands.\n")
      (by simp [helpParts]) ?_
    exact ⟨[], (" <member> <role>\n\nUse @" ++ u
        ++ " as a mention or the prefix to run commands.\n").data,
      by simp [hA, String.data_append, List.append_assoc]⟩
  · exact key "8ball" "8ball <question>\n  " " <question>\n  " (by decide)
      (by simp [helpParts])
  · exact key "coin" "coin\n  " "\n  " (by decide) (by simp [helpParts])
  · exact key "roll" "roll [sides]\n\nAdvanced:\n  " " [sides]\n\nAdvanced:\n  "
      (by decide) (by simp [helpParts])

theorem help_contains_commands_witness :
    occursIn ("!" ++ "roll") (helpText "!" "NekoNi2") :=
  help_contains_commands "!" "NekoNi2" "roll" (by simp [commandNames])

/-! ## C5 — configuration loading and fail-fast startup -/

/-- C5, counterexample: with `DISCORD_TOKEN` set (to the empty string), the
process still refuses to start: Python's `if not TOKEN:` treats the empty
string like an absent token, so "set implies started" fails. -/
theorem empty_token_counterexample :
    envEmptyToken "DISCORD_TOKEN" = some "" ∧
    loadConfig envEmptyToken = .ok ⟨"!", some "", "general", none⟩ ∧
    mainRun ⟨"!", some "", "general", none⟩ = .failedFast tokenMissingMsg :=
  ⟨rfl, rfl, rfl⟩

/-- C5, amended: configuration loading yields the command marker from
`PREFIX` (default `"!"`), the welcome-channel name from `WELCOME_CHANNEL`
(default `"general"`), the token verbatim from `DISCORD_TOKEN`, and an
`ownerId` that is the integer value of `OWNER_ID` when set to a parseable
string and absent when unset; when `DISCORD_TOKEN` is unset — or set to the
empty string, which the startup check treats the same way — the process
reports the error and never starts, and when it is set to a nonempty string
the bot is started with exactly that token. -/
theorem config_loading_spec (env : String → Option String) :
    (env "PREFIX" = none → ∀ c, loadConfig env = .ok c → c.pfx = "!") ∧
    (∀ s, env "PREFIX" = some s → ∀ c, loadConfig env = .ok c → c.pfx = s) ∧
    (env "WELCOME_CHANNEL" = none →
      ∀ c, loadConfig env = .ok c → c.welcomeChannel = "general") ∧
    (∀ s, env "WELCOME_CHANNEL" = some s →
      ∀ c, loadConfig env = .ok c → c.welcomeChannel = s) ∧
    (env "OWNER_ID" = none → ∀ c, loadConfig env = .ok c → c.ownerId = none) ∧
    (∀ s n, env "OWNER_ID" = some s → pyInt s = some n →
      ∀ c, loadConfig env = .ok c → c.ownerId = some n) ∧
    (∀ c, loadConfig env = .ok c → c.token = env "DISCORD_TOKEN") ∧
    (env "DISCORD_TOKEN" = none →
      ∀ c, loadConfig env = .ok c → mainRun c = .failedFast tokenMissingMsg) ∧
    (∀ t, env "DISCORD_TOKEN" = some t → t ≠ "" →
      ∀ c, loadConfig env = .ok c → mainRun c = .started t) := by
  have hok : ∀ c, loadConfig env = .ok c →
      c.pfx = getenvD env "PREFIX" "!" ∧
      c.token = env "DISCORD_TOKEN" ∧
      c.welcomeChannel = getenvD env "WELCOME_CHANNEL" "general" := by
    intro c hc
    rcases ho : env "OWNER_ID" with - | s
    · simp only [loadConfig, ho, Except.ok.injEq] at hc
      subst hc
      exact ⟨rfl, rfl, rfl⟩
    · by_cases hs : s = ""
      · subst hs
        simp only [loadConfig, ho, if_true, Except.ok.injEq] at hc
        subst hc
        exact ⟨rfl, rfl, rfl⟩
      · simp only [loadConfig, ho] at hc
        rw [if_neg hs] at hc
        rcases hp : pyInt (getenvD env "OWNER_ID" "0") with - | n
        · rw [hp] at hc
          simp at hc
        · rw [hp] at hc
          simp only [Except.ok.injEq] at hc
          subst hc
          exact ⟨rfl, rfl, rfl⟩
  refine ⟨?_, ?_, ?_, ?_, ?_, ?_, fun c hc => (hok c hc).2.1, ?_, ?_⟩
  · intro h c hc
    rw [(hok c hc).1]
    simp [getenvD, h]
  · intro s h c hc
    rw [(hok c hc).1]
    simp [getenvD, h]
  · intro h c hc
    rw [(hok c hc).2.2]
    simp [getenvD, h]
  · intro s h c hc
    rw [(hok c hc).2.2]
    simp [getenvD, h]
  · intro h c hc
    simp only [loadConfig, h, Except.ok.injEq] at hc
    subst hc
    rfl
  · intro s n h hp c hc
    have hs : s ≠ "" := by
      intro he
      rw [he] at hp
      exact Option.noConfusion hp
    have hg : getenvD env "OWNER_ID" "0" = s := by simp [getenvD, h]
    simp only [loadConfig, h] at hc
    rw [if_neg hs, hg, hp] at hc
    simp only [Except.ok.injEq] at hc
    subst hc
    rfl
  · intro h c hc
    rw [mainRun, (hok c hc).2.1, h]
  · intro t h ht c hc
    rw [mainRun, (hok c hc).2.1, h]
    simp [ht]

theorem config_loading_spec_witness :
    loadConfig envTokenSet = .ok ⟨"!", some "secret-token", "general", none⟩ ∧
    mainRun ⟨"!", some "secret-token", "general", none⟩ = .started "secret-token" := by
  refine ⟨rfl, ?_⟩
  exact (config_loading_spec envTokenSet).2.2.2.2.2.2.2.2 "secret-token" rfl
    (by decide) ⟨"!", some "secret-token", "general", none⟩ rfl

/-! ## C10 — OWNER_ID parsing at import time -/

/-- C10, counterexample: `OWNER_ID` set to the empty string is not a valid
integer literal, yet loading does not raise: the truthiness guard
`if os.getenv("OWNER_ID")` short-circuits and the owner id is simply absent. -/
theorem owner_id_empty_counterexample :
    envOwnerEmpty "OWNER_ID" = some "" ∧
    pyInt "" = none ∧
    loadConfig envOwnerEmpty = .ok ⟨"!", none, "general", none⟩ :=
  ⟨rfl, by decide, rfl⟩

/-- C10, amended: if `OWNER_ID` is set to a nonempty string that is not a
valid integer literal, configuration loading raises `ValueError` at import
time (the module never comes up), while an unset — or empty, hence falsy —
`OWNER_ID` loads as an absent owner id. -/
theorem owner_id_validation_spec (env : String → Option String) (s : String) :
    (env "OWNER_ID" = some s → s ≠ "" → pyInt s = none →
      loadConfig env =
        .error ("ValueError: invalid literal for int() with base 10: \x27"
          ++ s ++ "\x27")) ∧
    (env "OWNER_ID" = some "" → ∀ c, loadConfig env = .ok c → c.ownerId = none) ∧
    (env "OWNER_ID" = none → ∀ c, loadConfig env = .ok c → c.ownerId = none) := by
  refine ⟨?_, ?_, ?_⟩
  · intro h hs hp
    have hg : getenvD env "OWNER_ID" "0" = s := by simp [getenvD, h]
    simp only [loadConfig, h]
    rw [if_neg hs, hg, hp]
  · intro h c hc
    simp only [loadConfig, h, if_true, Except.ok.injEq] at hc
    subst hc
    rfl
  · intro h c hc
    simp only [loadConfig, h, Except.ok.injEq] at hc
    subst hc
    rfl

theorem owner_id_validation_spec_witness :
    loadConfig envOwnerBad =
      .error "ValueError: invalid literal for int() with base 10: \x27abc\x27" :=
  (owner_id_validation_spec envOwnerBad "abc").1 rfl (by decide) (by decide)

end Bot
